import Mathlib

/-!
Shallow embedding of the `mcp_read_images` stdio JSON-RPC server
(`src/index.ts`, the `ImageAnalysisServer` revision): the transport framer
of `run`, the envelope/reply logic, the dispatch table, the `tools/call`
handler, `checkOpenaiKey`, and the `analyzeImage` pipeline.  External
collaborators (filesystem, sharp, the HTTPS client) are oracle fields of a
`World`, following the spec's black-box treatment of them.
-/

namespace McpReadImages

/-! ## Transport framer (index.ts `run`, lines 441-452)

The loop keeps a string `buffer`, appends each chunk, and repeatedly cuts
at the first `'\n'`, trimming each cut line and skipping empty ones.
Characters are modelled as `List Char`. -/

/-- One character step of cutting a string into complete lines: processing
character `c` in front of the already-cut tail `p` (complete lines, remainder). -/
def stepChar (c : Char) (p : List (List Char) × List Char) :
    List (List Char) × List Char :=
  if c = '\n' then ([] :: p.1, p.2)
  else
    match p.1 with
    | [] => ([], c :: p.2)
    | l :: ls => ((c :: l) :: ls, p.2)

/-- Cut a character stream into the complete (newline-terminated) lines and
the trailing remainder, exactly as the `while`/`indexOf('\n')` loop does to
`buffer`. -/
def splitComplete : List Char → List (List Char) × List Char
  | [] => ([], [])
  | c :: rest => stepChar c (splitComplete rest)

/-- Feed successive input chunks to the framer, starting from buffer `buf`:
returns all emitted complete lines (in order) and the final buffer.  Mirrors
`buffer += chunk` followed by draining every complete line before the next
`data` event is consumed. -/
def feedAll (buf : List Char) : List (List Char) → List (List Char) × List Char
  | [] => ([], buf)
  | c :: cs =>
    let p := splitComplete (buf ++ c)
    let q := feedAll p.2 cs
    (p.1 ++ q.1, q.2)

/-- ASCII whitespace recognized by JavaScript `String.prototype.trim`
(space, tab, newline, carriage return, vertical tab, form feed).  The JS
method also strips some further Unicode space characters; the ASCII subset
is what the blank-line behaviour of the server exercises. -/
def jsIsWs (c : Char) : Bool :=
  c == ' ' || c == '\t' || c == '\n' || c == '\r' ||
    c == Char.ofNat 11 || c == Char.ofNat 12

/-- `line.trim()`: drop whitespace from both ends. -/
def jsTrim (l : List Char) : List Char :=
  ((l.dropWhile jsIsWs).reverse.dropWhile jsIsWs).reverse

/-- The logical lines the framer hands to the JSON parser for a given chunk
sequence: every completed line, trimmed, with blank lines skipped
(`if (!line) continue`). -/
def framerLines (chunks : List (List Char)) : List (List Char) :=
  (((feedAll [] chunks).1).map jsTrim).filter (fun l => !l.isEmpty)

/-! ## JSON-RPC envelopes and the reply discipline (index.ts lines 453-505) -/

/-- JSON-RPC id values as they appear in a parsed envelope (numbers and
strings). -/
inductive JId
  | num (n : Int)
  | str (s : String)
deriving DecidableEq

/-- The three observable states of `request.id` after `JSON.parse`: the
field is absent (`undefined` in JS), explicitly `null`, or a value. -/
inductive IdField
  | absent
  | null
  | val (j : JId)
deriving DecidableEq

/-- The run loop's reply guard `request.id !== undefined && request.id !== null`. -/
def idPresent : IdField → Bool
  | .val _ => true
  | _ => false

/-- The `arguments` object of a `tools/call` request; each field may be
absent at runtime (the TypeScript cast at line 394 performs no validation). -/
structure CallArgs where
  image_path : Option String
  question : Option String
  model : Option String
deriving DecidableEq

/-- The `params` of an inbound request as the handlers see them.  The run
loop passes `request.params || {}`, so a missing params object arrives as
both fields absent.  Only `tools/call` reads these fields; the other
handlers ignore their params (or only log them). -/
structure CallParams where
  name : Option String
  arguments : Option CallArgs
deriving DecidableEq

/-- A parsed inbound envelope. -/
structure Envelope where
  id : IdField
  method : String
  params : CallParams
deriving DecidableEq

/-! ## Worlds: the external collaborators as oracles -/

/-- Image dimensions reported by `sharp(imageBuffer).metadata()`; both
fields are optional in sharp's own typing, and the code branches on their
JS truthiness (line 206). -/
structure Meta where
  width : Option Nat
  height : Option Nat
deriving DecidableEq

/-- A file successfully read by `fs.readFile`: its byte length and what
`sharp(...).metadata()` resolves (or rejects) to for those bytes. -/
structure ImageFile where
  size : Nat
  meta : Except String Meta

/-- The decision taken on the image bytes by lines 204-222: pass the raw
buffer through untouched, resize (pinning one side to `maxDim`) and encode
to JPEG at `quality`, or only re-encode to JPEG at `quality`. -/
inductive ResizeDim
  | byWidth
  | byHeight
deriving DecidableEq

inductive EncResult
  | originalBytes
  | resized (dim : ResizeDim) (maxDim quality : Nat)
  | reencoded (quality : Nat)
deriving DecidableEq

def MAX_DIMENSION : Nat := 1024
def JPEG_QUALITY : Nat := 85

/-- JS truthiness of `metadata.width` / `metadata.height` (`undefined` and
`0` are falsy). -/
def natTruthy : Option Nat → Bool
  | none => false
  | some n => n != 0

/-- Lines 204-222: `let resizedBuffer = imageBuffer;` then, only when both
dimensions are truthy, resize-and-encode or just re-encode; otherwise the
raw buffer is left as-is.  `resize({width: M})` / `resize({height: M})` is
sharp's proportional resize with the given side pinned; the side pinned is
the larger one (`metadata.width > metadata.height ? {width:M} : {height:M}`). -/
def preprocess (md : Meta) : EncResult :=
  if natTruthy md.width && natTruthy md.height then
    let w := md.width.getD 0
    let h := md.height.getD 0
    if max w h > MAX_DIMENSION then
      .resized (if w > h then .byWidth else .byHeight) MAX_DIMENSION JPEG_QUALITY
    else
      .reencoded JPEG_QUALITY
  else
    .originalBytes

/-- The request body sent to the provider: the resolved model, the question
text, and (standing for the base64 data URI) the processed image. -/
structure HttpReq where
  model : String
  question : String
  image : EncResult
deriving DecidableEq

/-- The provider's HTTP response as the code observes it: `response.ok`,
`response.status`, `response.statusText`, the body text, and the value of
`JSON.parse(responseText).choices[0].message.content` when that whole chain
succeeds (`none` when `JSON.parse` throws or the property chain is absent). -/
structure HttpResp where
  ok : Bool
  status : Nat
  statusText : String
  bodyText : String
  parsed : Option String
deriving DecidableEq

/-- The process environment and the two external effectful collaborators:
the filesystem (`fs.readFile` composed with sharp's probe) and the HTTPS
client. -/
structure World where
  openaiKey : Option String
  openaiModel : Option String
  fs : String → Except String ImageFile
  http : HttpReq → HttpResp

/-- JS truthiness of a string-valued environment variable or argument
(`undefined` and the empty string are falsy). -/
def strTruthy : Option String → Bool
  | none => false
  | some s => s != ""

/-! ## analyzeImage (index.ts lines 184-305) -/

/-- Errors that can escape `analyzeImage` into the `tools/call` handler:
`McpError` instances (carrying an MCP error code) versus every other thrown
error (TypeError, fs errors, fetch errors, ...), of which only the message
is observable downstream. -/
inductive JsErr
  | mcpE (code message : String)
  | genericE (message : String)
deriving DecidableEq

/-- The message of the `TypeError` Node's `path.isAbsolute` throws when
called with `undefined` (a missing `image_path`). -/
def pathTypeErrorMessage : String :=
  "The \"path\" argument must be of type string. Received undefined"

/-- Node `path.isAbsolute` for POSIX paths: true iff the path is nonempty
and its first character is a forward slash. -/
def isAbsolutePath (p : String) : Bool :=
  match p.data with
  | [] => false
  | c :: _ => c == '/'

/-- `a || b` on an optional string against a default (JS `||` takes the
right operand when the left is absent or the empty string). -/
def jsOrStr : Option String → String → String
  | none, d => d
  | some s, d => if s = "" then d else s

/-- Line 236: `const selectedModel = model || process.env.OPENAI_MODEL || "gpt-4.1";` -/
def selectedModel (model envModel : Option String) : String :=
  jsOrStr model (jsOrStr envModel "gpt-4.1")

/-- Lines 239-248: the vision-capable allow-list. -/
def validModels : List String :=
  ["gpt-4.1", "gpt-4.1-mini", "gpt-4.1-nano", "gpt-4o", "gpt-4o-mini",
   "gpt-4-turbo", "gpt-4", "gpt-4-vision-preview"]

/-- Lines 249-251: a model off the allow-list only produces a
`console.error` warning on the diagnostic channel; there is no branch on
this value anywhere in the pipeline. -/
def modelWarning (m : String) : Bool := !(validModels.contains m)

/-- Lines 289-300: after `fetch`, the body is read as text; a non-ok status
throws a plain `Error` embedding the status text and the raw body, and
otherwise the parsed `choices[0].message.content` is returned (a parse or
property failure throws, surfacing as a generic error). -/
def httpPhase (resp : HttpResp) : Except JsErr String :=
  if !resp.ok then
    .error (.genericE ("OpenAI API error: " ++ resp.statusText ++
      "\nDetails: " ++ resp.bodyText))
  else
    match resp.parsed with
    | some content => .ok content
    | none => .error (.genericE "Cannot read properties of undefined (reading \x270\x27)")

def mkRequest (model question : String) (image : EncResult) : HttpReq :=
  { model := model, question := question, image := image }

/-- `analyzeImage` (lines 184-305).  The absolute-path check precedes the
`try` block; the surrounding `catch` only logs and rethrows, so it is
semantically transparent.  A `none` path models a call with `image_path`
missing from the arguments: `isAbsolute(undefined)` throws a `TypeError`
before anything else runs. -/
def analyzeImage (w : World) (imagePath : Option String)
    (question model : Option String) : Except JsErr String :=
  match imagePath with
  | none => .error (.genericE pathTypeErrorMessage)
  | some p =>
    if !(isAbsolutePath p) then
      .error (.mcpE "InvalidParams" "Image path must be absolute")
    else
      match w.fs p with
      | .error m => .error (.genericE m)
      | .ok file =>
        match file.meta with
        | .error m => .error (.genericE m)
        | .ok md =>
          let image := preprocess md
          if !(strTruthy w.openaiKey) then
            .error (.mcpE "MissingApiKey"
              "OPENAI_API_KEY environment variable is required")
          else
            httpPhase (w.http (mkRequest (selectedModel model w.openaiModel)
              (jsOrStr question "What\x27s in this image?") image))

/-! ## Dispatch table and the tools/call handler (lines 307-436) -/

/-- What a handler invocation resolves to. -/
inductive HResult
  | initRes
  | unitRes
  | toolsListRes
  | emptyObj
  | toolRes (text : String) (isError : Bool)
deriving DecidableEq

/-- A handler invocation resolves, rejects, or synchronously terminates the
whole process (`process.exit` reached while the handler body is still
running). -/
inductive HandlerOutcome
  | ok (r : HResult)
  | err (e : JsErr)
  | exit (code : Nat)
deriving DecidableEq

/-- `checkOpenaiKey` (lines 171-182).  With a falsy key it synchronously
fires `process.emit("SIGINT")`; the constructor installed
`process.on('SIGINT', () => process.exit(0))` (lines 324-326), so the
process exits with code 0 right there and the `console.error` and the
`throw new McpError('MissingApiKey', ...)` that follow are never reached.
Returns the exit code taken, or `none` when the key is truthy. -/
def checkOpenaiKey (w : World) : Option Nat :=
  if strTruthy w.openaiKey then none else some 0

/-- The `tools/call` handler (lines 384-424): key check, tool-name check,
then `analyzeImage` inside a `try` whose `catch` rethrows any `McpError`
and wraps every other failure as a successful `isError: true` tool result.
When `arguments` is absent, `args.image_path` inside the `try` throws a
`TypeError` that is caught and wrapped the same way. -/
def toolsCall (w : World) (p : CallParams) : HandlerOutcome :=
  match checkOpenaiKey w with
  | some c => .exit c
  | none =>
    if p.name ≠ some "analyze_image" then
      .err (.mcpE "MethodNotFound" ("Unknown tool: " ++ p.name.getD "undefined"))
    else
      match p.arguments with
      | none =>
        .ok (.toolRes ("Error analyzing image: Cannot read properties of undefined (reading \x27image_path\x27)") true)
      | some args =>
        match analyzeImage w args.image_path args.question args.model with
        | .ok text => .ok (.toolRes text false)
        | .error (.mcpE c m) => .err (.mcpE c m)
        | .error (.genericE m) =>
          .ok (.toolRes ("Error analyzing image: " ++ m) true)

/-- `handleRequest` (lines 430-436) over the handler map built by
`setupHandlers`: the five registered methods, with every other method name
rejected with `MethodNotFound`. -/
def handleRequest (w : World) (method : String) (p : CallParams) : HandlerOutcome :=
  if method = "initialize" then .ok .initRes
  else if method = "notifications/initialized" then .ok .unitRes
  else if method = "tools/list" then .ok .toolsListRes
  else if method = "tools/call" then toolsCall w p
  else if method = "ping" then .ok .emptyObj
  else .err (.mcpE "MethodNotFound" ("Unknown method: " ++ method))

/-- `getErrorCode` (lines 512-526). -/
def strContains (s sub : String) : Bool := (s.splitOn sub).length ≥ 2

def getErrorCode : JsErr → String
  | .mcpE c _ => c
  | .genericE m =>
    if strContains m "Unknown method" then "MethodNotFound"
    else if strContains m "Invalid params" then "InvalidParams"
    else "InternalError"

def errMessage : JsErr → String
  | .mcpE _ m => m
  | .genericE m => m

/-- `data: error instanceof McpError ? undefined : error.stack` (line 484). -/
def errHasStack : JsErr → Bool
  | .mcpE _ _ => false
  | .genericE _ => true

/-- An outbound envelope's payload: a `result` or an `error` object. -/
inductive Payload
  | res (r : HResult)
  | errO (code message : String) (hasStack : Bool)
deriving DecidableEq

structure OutEnvelope where
  id : IdField
  payload : Payload
deriving DecidableEq

/-- What the run loop does with one dispatched envelope: write exactly one
line (`.out`), write nothing (`.silent`, the notification paths at lines
470-473 and 489-491), or die mid-dispatch (`.exitProc`, the synchronous
`process.exit` inside `checkOpenaiKey`). -/
inductive ReplyOut
  | out (o : OutEnvelope)
  | silent
  | exitProc (code : Nat)
deriving DecidableEq

/-- The payload the run loop serializes for a non-exiting handler outcome
(lines 462-469 for `.ok`, 477-488 for `.err`).  The `.exit` arm is never
consulted: a handler that exits the process writes nothing. -/
def payloadOf : HandlerOutcome → Payload
  | .ok r => .res r
  | .err e => .errO (getErrorCode e) (errMessage e) (errHasStack e)
  | .exit _ => .errO "InternalError" "process exited" false

/-- The outbound effect of one parsed inbound envelope (lines 459-492):
dispatch it, then reply iff `id !== undefined && id !== null`. -/
def replyOf (w : World) (e : Envelope) : ReplyOut :=
  match handleRequest w e.method e.params with
  | .exit c => .exitProc c
  | .ok r =>
    if idPresent e.id then .out ⟨e.id, .res (r : HResult)⟩ else .silent
  | .err er =>
    if idPresent e.id then
      .out ⟨e.id, .errO (getErrorCode er) (errMessage er) (errHasStack er)⟩
    else .silent

def isOut : ReplyOut → Bool
  | .out _ => true
  | _ => false

def isExit : HandlerOutcome → Bool
  | .exit _ => true
  | _ => false

/-- One framed line after `JSON.parse`: either the parser threw
(`.malformed`) or it yielded an envelope. -/
inductive InItem
  | malformed
  | msg (e : Envelope)

/-- The synthetic reply of the `catch` at lines 493-505.  The serialized
object carries no `data` key, modelled as `hasStack = false`. -/
def parseErrorEnvelope : OutEnvelope :=
  ⟨.null, .errO "ParseError" "Invalid JSON-RPC message" false⟩

/-- The run loop over a sequence of framed-and-parsed lines.  Replies are
listed in dispatch order (the claims here are per-envelope correlation
claims, not cross-envelope ordering claims).  A synchronous `process.exit`
reached during dispatch terminates the process: nothing further is read or
written. -/
def runItems (w : World) : List InItem → List OutEnvelope
  | [] => []
  | .malformed :: rest => parseErrorEnvelope :: runItems w rest
  | .msg e :: rest =>
    match replyOf w e with
    | .out o => o :: runItems w rest
    | .silent => runItems w rest
    | .exitProc _ => []

/-! ## Concrete worlds and inputs used by witnesses and counterexamples -/

def mdA : Meta := ⟨some 2000, some 1000⟩

def fileOK : ImageFile := ⟨1000, .ok mdA⟩

def respOK : HttpResp := ⟨true, 200, "OK", "raw-body", some "A cat."⟩

def resp401 : HttpResp := ⟨false, 401, "Unauthorized", "auth-details", none⟩

def wOK : World := ⟨some "sk-test", none, fun _ => .ok fileOK, fun _ => respOK⟩

def w401 : World := ⟨some "sk-test", none, fun _ => .ok fileOK, fun _ => resp401⟩

def wNoKey : World := ⟨none, none, fun _ => .ok fileOK, fun _ => respOK⟩

def argsGood : CallArgs := ⟨some "/tmp/cat.png", none, none⟩

def callGood : CallParams := ⟨some "analyze_image", some argsGood⟩

def argsNoPath : CallArgs := ⟨none, none, none⟩

def callNoPath : CallParams := ⟨some "analyze_image", some argsNoPath⟩

def argsRel : CallArgs := ⟨some "./rel.png", none, none⟩

def callRel : CallParams := ⟨some "analyze_image", some argsRel⟩

/-! ## Framer lemmas (claim C7) -/

/-- Cutting a concatenation: the lines of `x ++ y` are the complete lines
of `x` followed by those of `x`'s remainder prepended to `y`. -/
theorem splitComplete_append (x y : List Char) :
    splitComplete (x ++ y) =
      ((splitComplete x).1 ++ (splitComplete ((splitComplete x).2 ++ y)).1,
        (splitComplete ((splitComplete x).2 ++ y)).2) := by
  induction x with
  | nil => simp [splitComplete]
  | cons c x ih =>
    rcases hx : splitComplete x with ⟨ls, r⟩
    rw [hx] at ih
    rcases hA : splitComplete (r ++ y) with ⟨A, B⟩
    rw [hA] at ih
    by_cases hc : c = '\n'
    · subst hc
      simp [List.cons_append, splitComplete, hx, ih, hA, stepChar]
    · cases ls with
      | nil =>
        cases A with
        | nil =>
          simp [List.cons_append, splitComplete, hx, ih, hA, stepChar, hc]
        | cons a A2 =>
          simp [List.cons_append, splitComplete, hx, ih, hA, stepChar, hc]
      | cons l ls2 =>
        simp [List.cons_append, splitComplete, hx, ih, hA, stepChar, hc]

/-- The remainder left by the cutter contains no complete line: cutting it
again emits nothing. -/
theorem splitComplete_remainder (s : List Char) :
    splitComplete (splitComplete s).2 = ([], (splitComplete s).2) := by
  induction s with
  | nil => rfl
  | cons c s ih =>
    rcases hs : splitComplete s with ⟨ls, r⟩
    rw [hs] at ih
    simp only at ih
    by_cases hc : c = '\n'
    · subst hc
      simp [splitComplete, hs, stepChar, ih]
    · cases ls with
      | nil =>
        simp [splitComplete, hs, stepChar, hc, ih]
      | cons l ls2 =>
        simp [splitComplete, hs, stepChar, hc, ih]

/-- Feeding chunks one at a time from a newline-free buffer emits exactly
the complete lines of the whole concatenation. -/
theorem feedAll_join (chunks : List (List Char)) :
    ∀ buf, splitComplete buf = ([], buf) →
      feedAll buf chunks = splitComplete (buf ++ chunks.flatten) := by
  induction chunks with
  | nil =>
    intro buf hb
    simp [feedAll, hb]
  | cons c cs ih =>
    intro buf hb
    have hrem := splitComplete_remainder (buf ++ c)
    simp only [feedAll, List.flatten_cons]
    rw [ih _ hrem, ← List.append_assoc, splitComplete_append (buf ++ c) cs.flatten]

/-! ## Claim theorems -/

/-- Claim C7 (confirmed): for every byte stream and every way of splitting
it into successive chunks (including mid-line and mid-delimiter splits),
the framer emits the same sequence of logical lines as for the unsplit
stream.  The two closed conjuncts additionally exhibit a blank line being
silently skipped and a partial line (`"a"`) being buffered across a chunk
boundary until its newline arrives. -/
theorem c7_framer_split_invariance (chunks : List (List Char)) :
    framerLines chunks = framerLines [chunks.flatten] ∧
    framerLines [[' ', '\n', 'a']] = [] ∧
    framerLines [[' ', '\n', 'a'], ['b', '\n']] = [['a', 'b']] := by
  refine ⟨?_, by decide, by decide⟩
  unfold framerLines
  rw [feedAll_join chunks [] rfl, feedAll_join [chunks.flatten] [] rfl]
  simp

/-- Claim C6 (confirmed): a line that is not valid JSON never crashes the
server (`runItems` is total); it produces a synthetic error envelope with
`id = null` and code `ParseError` on its own output line, after which the
remaining lines are processed exactly as they would otherwise be. -/
theorem c6_parse_error_continues (w : World) (items : List InItem) :
    runItems w (.malformed :: items) = parseErrorEnvelope :: runItems w items ∧
    parseErrorEnvelope.id = .null ∧
    parseErrorEnvelope.payload = .errO "ParseError" "Invalid JSON-RPC message" false :=
  ⟨rfl, rfl, rfl⟩

/-- Claim C1 counterexample: an inbound envelope whose `id` field is
present but explicitly `null` produces zero outbound envelopes (the run
loop's guard `request.id !== undefined && request.id !== null` treats it
as a notification), refuting the claim that every envelope carrying a
present `id` gets exactly one reply with that `id`. -/
theorem c1_null_id_zero_replies :
    replyOf wOK ⟨.null, "ping", ⟨none, none⟩⟩ = .silent := rfl

/-- Claim C1 (amended): every inbound envelope whose `id` is present and
non-null, and whose dispatch does not synchronously terminate the process
(the missing-key `tools/call` path), gets exactly one outbound envelope
carrying that same `id` — a result envelope when the handler resolves and
an error envelope when it rejects (`payloadOf`); an envelope whose `id` is
absent or null never gets an outbound envelope. -/
theorem c1_id_correlation (w : World) (e : Envelope) :
    (idPresent e.id = true → isExit (handleRequest w e.method e.params) = false →
      replyOf w e = .out ⟨e.id, payloadOf (handleRequest w e.method e.params)⟩) ∧
    (idPresent e.id = false → isOut (replyOf w e) = false) := by
  constructor
  · intro hid hex
    rcases h : handleRequest w e.method e.params with r | er | c
    · simp [replyOf, payloadOf, h, hid]
    · simp [replyOf, payloadOf, h, hid]
    · rw [h] at hex
      simp [isExit] at hex
  · intro hid
    rcases h : handleRequest w e.method e.params with r | er | c <;>
      simp [replyOf, h, hid, isOut]

/-- Witness for C1: a `ping` request with `id = 1` gets exactly its result
envelope; the same call as a notification (no `id`) gets none. -/
theorem c1_id_correlation_witness :
    replyOf wOK ⟨.val (.num 1), "ping", ⟨none, none⟩⟩ =
      .out ⟨.val (.num 1), payloadOf (handleRequest wOK "ping" ⟨none, none⟩)⟩ ∧
    isOut (replyOf wOK ⟨.absent, "ping", ⟨none, none⟩⟩) = false :=
  ⟨(c1_id_correlation wOK ⟨.val (.num 1), "ping", ⟨none, none⟩⟩).1 rfl rfl,
    (c1_id_correlation wOK ⟨.absent, "ping", ⟨none, none⟩⟩).2 rfl⟩

/-- Claim C10 (confirmed): an envelope whose `id` field is explicitly
`null` is treated exactly like one with no `id` at all: the handler is
still dispatched (its effects, including a synchronous process exit, still
happen), but no outbound envelope is ever written for it. -/
theorem c10_null_id_is_notification (w : World) (e : Envelope) (h : e.id = .null) :
    isOut (replyOf w e) = false ∧
    replyOf w e = replyOf w ⟨.absent, e.method, e.params⟩ ∧
    (∀ c, handleRequest w e.method e.params = .exit c → replyOf w e = .exitProc c) := by
  rcases hr : handleRequest w e.method e.params with r | er | c <;>
    simp [replyOf, hr, h, idPresent, isOut]

/-- Witness for C10: a `tools/list` call with `id = null` produces no
outbound envelope and behaves identically to the same call with no `id`. -/
theorem c10_null_id_witness :
    isOut (replyOf wOK ⟨.null, "tools/list", ⟨none, none⟩⟩) = false ∧
    replyOf wOK ⟨.null, "tools/list", ⟨none, none⟩⟩ =
      replyOf wOK ⟨.absent, "tools/list", ⟨none, none⟩⟩ :=
  ⟨(c10_null_id_is_notification wOK ⟨.null, "tools/list", ⟨none, none⟩⟩ rfl).1,
    (c10_null_id_is_notification wOK ⟨.null, "tools/list", ⟨none, none⟩⟩ rfl).2.1⟩

/-- Claim C3 (code_bug): evaluating the code at the failing input — a
`tools/call` with valid absolute-path arguments while `OPENAI_API_KEY` is
unset — shows the handler synchronously exiting the process with code 0
(via `process.emit("SIGINT")` and the installed handler), so the
`MissingApiKey` protocol error the spec promises, whose `throw` is dead
code right after the emit, is never produced. -/
theorem c3_missing_key_exits_process :
    toolsCall wNoKey callGood = .exit 0 := rfl

/-- Claim C4 (confirmed): for every `tools/call` envelope dispatched while
`OPENAI_API_KEY` is unset, `checkOpenaiKey` synchronously fires the SIGINT
handler installed in the constructor, which calls `process.exit(0)`: the
process terminates with exit code 0 and no envelope — in particular no
`MissingApiKey` error reply — is ever written for the request. -/
theorem c4_sigint_exit_before_reply (w : World) (e : Envelope)
    (hk : w.openaiKey = none) (hm : e.method = "tools/call") :
    replyOf w e = .exitProc 0 := by
  have h1 : strTruthy w.openaiKey = false := by rw [hk]; rfl
  simp [replyOf, handleRequest, hm, toolsCall, checkOpenaiKey, h1]

/-- Witness for C4: a concrete keyless world and `tools/call` request. -/
theorem c4_sigint_exit_witness :
    replyOf wNoKey ⟨.val (.num 7), "tools/call", callGood⟩ = .exitProc 0 :=
  c4_sigint_exit_before_reply wNoKey ⟨.val (.num 7), "tools/call", callGood⟩ rfl rfl

/-- Claim C5 counterexample: a `tools/call` whose arguments carry no
`image_path` at all does NOT fail with `InvalidParams`: `isAbsolute(undefined)`
throws a `TypeError` that the handler's `catch` wraps as a successful
`isError: true` tool result (an `.ok`, not an `.err`), refuting the claim
that a missing `image_path` yields the `InvalidParams` protocol error. -/
theorem c5_missing_path_not_invalid_params :
    toolsCall wOK callNoPath =
      .ok (.toolRes ("Error analyzing image: " ++ pathTypeErrorMessage) true) := rfl

/-- Claim C5 (amended): a `tools/call` whose `image_path` is present but
relative always fails with the `InvalidParams` protocol error — and since
the conclusion holds for every world `w`, in particular for every
filesystem oracle, the path never reaches the filesystem; a missing
`image_path` instead surfaces as an `isError: true` tool result wrapping
the path API's TypeError, not as `InvalidParams`. -/
theorem c5_path_validation (w : World) (p : CallParams) (args : CallArgs)
    (hkey : strTruthy w.openaiKey = true)
    (hname : p.name = some "analyze_image") (hargs : p.arguments = some args) :
    (∀ pth, args.image_path = some pth → isAbsolutePath pth = false →
      toolsCall w p = .err (.mcpE "InvalidParams" "Image path must be absolute")) ∧
    (args.image_path = none →
      toolsCall w p =
        .ok (.toolRes ("Error analyzing image: " ++ pathTypeErrorMessage) true)) := by
  constructor
  · intro pth hp hrel
    simp [toolsCall, checkOpenaiKey, hkey, hname, hargs, analyzeImage, hp, hrel]
  · intro hp
    simp [toolsCall, checkOpenaiKey, hkey, hname, hargs, analyzeImage, hp]

/-- Witness for C5: a relative path that exists in no filesystem check —
the reply is `InvalidParams`, not a file-not-found, even though the
world's filesystem would happily return a file. -/
theorem c5_path_validation_witness :
    toolsCall wOK callRel = .err (.mcpE "InvalidParams" "Image path must be absolute") :=
  (c5_path_validation wOK callRel argsRel rfl rfl rfl).1 "./rel.png" rfl (by decide)

/-- Claim C2 (confirmed): execution-time pipeline failures (file read,
decode, HTTP, malformed provider response — every non-`McpError` throw)
are caught by `tools/call` and returned as a successful tool result with
`isError: true` and a message carrying the failure context; a non-2xx HTTP
response in particular yields a message embedding the status text; and
every `McpError` escaping the pipeline is re-raised to the protocol error
path, never wrapped as an `isError` result. -/
theorem c2_two_tier_errors (w : World) (p : CallParams) (args : CallArgs)
    (hkey : strTruthy w.openaiKey = true)
    (hname : p.name = some "analyze_image") (hargs : p.arguments = some args) :
    (∀ m, analyzeImage w args.image_path args.question args.model =
        .error (.genericE m) →
      toolsCall w p = .ok (.toolRes ("Error analyzing image: " ++ m) true)) ∧
    (∀ c m, analyzeImage w args.image_path args.question args.model =
        .error (.mcpE c m) →
      toolsCall w p = .err (.mcpE c m)) ∧
    (∀ pth file md resp, args.image_path = some pth → isAbsolutePath pth = true →
      w.fs pth = .ok file → file.meta = .ok md →
      w.http (mkRequest (selectedModel args.model w.openaiModel)
        (jsOrStr args.question "What\x27s in this image?") (preprocess md)) = resp →
      resp.ok = false →
      toolsCall w p = .ok (.toolRes ("Error analyzing image: " ++ ("OpenAI API error: "
        ++ resp.statusText ++ "\nDetails: " ++ resp.bodyText)) true)) := by
  refine ⟨?_, ?_, ?_⟩
  · intro m hm
    simp [toolsCall, checkOpenaiKey, hkey, hname, hargs, hm]
  · intro c m hm
    simp [toolsCall, checkOpenaiKey, hkey, hname, hargs, hm]
  · intro pth file md resp hp habs hfs hmd hhttp hok
    have hana : analyzeImage w args.image_path args.question args.model =
        .error (.genericE ("OpenAI API error: " ++ resp.statusText ++
          "\nDetails: " ++ resp.bodyText)) := by
      simp [analyzeImage, hp, habs, hfs, hmd, hkey, hhttp, httpPhase, hok]
    simp [toolsCall, checkOpenaiKey, hkey, hname, hargs, hana]

/-- Witness for C2: a provider returning HTTP 401 produces a successful
tool result with `isError: true` whose message contains the status text
`Unauthorized` — not a protocol-level error. -/
theorem c2_http_401_witness :
    toolsCall w401 callGood =
      .ok (.toolRes ("Error analyzing image: " ++ ("OpenAI API error: "
        ++ resp401.statusText ++ "\nDetails: " ++ resp401.bodyText)) true) :=
  (c2_two_tier_errors w401 callGood argsGood rfl rfl rfl).2.2
    "/tmp/cat.png" fileOK mdA resp401 rfl (by decide) rfl rfl rfl rfl

/-- Claim C8 counterexample: a successfully probed image whose metadata
reports no width (sharp's metadata fields are optional, and the code
branches on their truthiness at line 206) is forwarded as the raw original
buffer — it is NOT re-encoded to JPEG — refuting "in all cases the bytes
sent onward are re-encoded to JPEG at the configured quality". -/
theorem c8_missing_dims_not_reencoded :
    preprocess ⟨none, some 500⟩ = .originalBytes := rfl

/-- Claim C8 (amended): whenever the probe reports both dimensions present
and nonzero, the pipeline resizes with the larger side pinned to
`MAX_DIMENSION` (proportional resize) exactly when `max(width, height)`
exceeds it, otherwise keeps the dimensions, and in either of those cases
re-encodes to JPEG at `JPEG_QUALITY` (never forwarding the original
bytes); when either dimension is missing or zero the original buffer is
forwarded unencoded. -/
theorem c8_resize_policy (md : Meta) (w h : Nat)
    (hw : md.width = some w) (hh : md.height = some h)
    (hw0 : w ≠ 0) (hh0 : h ≠ 0) :
    (max w h > MAX_DIMENSION →
      preprocess md =
        .resized (if w > h then .byWidth else .byHeight) MAX_DIMENSION JPEG_QUALITY) ∧
    (max w h ≤ MAX_DIMENSION → preprocess md = .reencoded JPEG_QUALITY) ∧
    preprocess md ≠ .originalBytes := by
  have hwt : natTruthy (some w) = true := by simp [natTruthy, bne_iff_ne, hw0]
  have hht : natTruthy (some h) = true := by simp [natTruthy, bne_iff_ne, hh0]
  refine ⟨?_, ?_, ?_⟩
  · intro hgt
    simp [preprocess, hwt, hht, hw, hh, hgt]
  · intro hle
    simp [preprocess, hwt, hht, hw, hh, Nat.not_lt.mpr hle]
  · intro hbad
    by_cases hgt : max w h > MAX_DIMENSION
    · simp [preprocess, hwt, hht, hw, hh, hgt] at hbad
    · simp [preprocess, hwt, hht, hw, hh, hgt] at hbad

/-- Witness for C8: a 2000x1000 image is resized by pinning its width (the
larger side) to `MAX_DIMENSION` and re-encoded at `JPEG_QUALITY`. -/
theorem c8_resize_policy_witness :
    preprocess mdA = .resized .byWidth MAX_DIMENSION JPEG_QUALITY := by
  have h := (c8_resize_policy mdA 2000 1000 rfl rfl (by decide) (by decide)).1 (by decide)
  simpa using h

/-- Claim C9 counterexample: a `model` argument that is present but the
empty string is skipped by the JS `||` chain in favour of the environment
default, refuting "the model field of the call arguments if present". -/
theorem c9_empty_model_arg_skipped :
    selectedModel (some "") (some "gpt-4o") = "gpt-4o" := rfl

/-- Claim C9 (amended): the model is resolved as the first truthy
(present and non-empty) value among the call's `model` argument, the
`OPENAI_MODEL` environment variable, and the hardcoded `"gpt-4.1"`
fallback; resolution is total, and for every resolved model — recognized
by the `validModels` allow-list or not (`modelWarning` is diagnostic only
and gates nothing) — a call that reaches the model-selection step proceeds
to the HTTP request built from that model. -/
theorem c9_model_resolution (w : World) :
    (∀ s e, s ≠ "" → selectedModel (some s) e = s) ∧
    (∀ e, e ≠ "" → selectedModel none (some e) = e ∧
      selectedModel (some "") (some e) = e) ∧
    selectedModel none none = "gpt-4.1" ∧
    (∀ q m pth file md, strTruthy w.openaiKey = true →
      isAbsolutePath pth = true → w.fs pth = .ok file → file.meta = .ok md →
      analyzeImage w (some pth) q m =
        httpPhase (w.http (mkRequest (selectedModel m w.openaiModel)
          (jsOrStr q "What\x27s in this image?") (preprocess md)))) := by
  refine ⟨?_, ?_, rfl, ?_⟩
  · intro s e hs
    simp [selectedModel, jsOrStr, hs]
  · intro e he
    constructor <;> simp [selectedModel, jsOrStr, he]
  · intro q m pth file md hkey habs hfs hmd
    simp [analyzeImage, habs, hfs, hmd, hkey]

/-- Witness for C9: `"made-up-model"` is not in the allow-list
(`modelWarning` would fire), yet the call proceeds to the HTTP request
carrying exactly that resolved model. -/
theorem c9_model_resolution_witness :
    analyzeImage wOK (some "/tmp/cat.png") none (some "made-up-model") =
      httpPhase (wOK.http (mkRequest (selectedModel (some "made-up-model") wOK.openaiModel)
        (jsOrStr none "What\x27s in this image?") (preprocess mdA))) :=
  (c9_model_resolution wOK).2.2.2 none (some "made-up-model") "/tmp/cat.png"
    fileOK mdA rfl (by decide) rfl rfl

end McpReadImages
